import Mathlib

/-!
Verification of the SL_ContextAI query-orchestration pipeline.

Shallow embedding of the repository's core (src/main.py, src/api.py):
question classification, per-category retrieval with fallback,
answer-generation invocation, and the streaming response encoder.
External services (FAISS similarity search, the LLM endpoint) are
modelled as opaque function parameters carried by an environment.
-/

namespace SLAI

/-- Python substring containment `needle in haystack` (str.__contains__). -/
def pyIn (needle haystack : String) : Bool :=
  haystack.data.tails.any (fun t => needle.data.isPrefixOf t)

/-- Python `s.lower()` (ASCII case folding over the code points). -/
def pyLower (s : String) : String :=
  String.mk (s.data.map Char.toLower)

/-- Python `s.strip()`: drop leading and trailing whitespace. -/
def pyStrip (s : String) : String :=
  String.mk (((s.data.dropWhile Char.isWhitespace).reverse.dropWhile
    Char.isWhitespace).reverse)

/-- Scanner for Python `s.split(sep)` over the code points, with enough
fuel to consume the whole input; `acc` holds the reversed current piece. -/
def pySplitOnFuel (sep : List Char) : Nat → List Char → List Char → List (List Char)
  | _, acc, [] => [acc.reverse]
  | 0, acc, rest => [acc.reverse ++ rest]
  | fuel + 1, acc, c :: rest =>
    if sep.isPrefixOf (c :: rest) then
      acc.reverse :: pySplitOnFuel sep fuel [] (List.drop (sep.length - 1) rest)
    else pySplitOnFuel sep fuel (c :: acc) rest

/-- Python `s.split(sep)` for a nonempty separator. -/
def pySplitOn (s sep : String) : List String :=
  (pySplitOnFuel sep.data s.data.length [] s.data).map String.mk

/-- Scanner for Python `s.replace(old, new)` over the code points. -/
def pyReplaceFuel (old new : List Char) : Nat → List Char → List Char
  | _, [] => []
  | 0, rest => rest
  | fuel + 1, c :: rest =>
    if old.isPrefixOf (c :: rest) then
      new ++ pyReplaceFuel old new fuel (List.drop (old.length - 1) rest)
    else c :: pyReplaceFuel old new fuel rest

/-- Python `s.replace(old, new)` for a nonempty `old`. -/
def pyReplace (s old new : String) : String :=
  String.mk (pyReplaceFuel old.data new.data s.data.length s.data)

/-- Keyword list for the `history` category (src/main.py line 90). -/
def keywords_history : List String :=
  ["war", "civil war", "independence", "colonial", "past", "history",
   "british", "revolution", "ruf", "special court"]

/-- Keyword list for the `culture` category (src/main.py line 92). -/
def keywords_culture : List String :=
  ["tradition", "custom", "language", "krio", "ethnic", "tribe",
   "mende", "temne", "limba", "music", "food", "religion", "festival"]

/-- Keyword list for the `politics` category (src/main.py line 94). -/
def keywords_politics : List String :=
  ["government", "president", "election", "parliament", "party",
   "apc", "slpp", "chief", "vote", "democracy", "political"]

/-- Keyword list for the `economy` category (src/main.py line 96). -/
def keywords_economy : List String :=
  ["business", "trade", "economy", "jobs", "market", "mining",
   "diamond", "agriculture", "fishing", "money", "leone", "bank"]

/-- The `keywords` dict of `classify_question`, in Python dict insertion
order (src/main.py lines 89-98). -/
def keywords : List (String × List String) :=
  [("history", keywords_history),
   ("culture", keywords_culture),
   ("politics", keywords_politics),
   ("economy", keywords_economy)]

/-- `sum(1 for kw in kws if kw in question_lower)` (src/main.py line 102). -/
def scoreOf (kws : List String) (question_lower : String) : Nat :=
  kws.countP (fun kw => pyIn kw question_lower)

/-- `SierraLeoneAI.classify_question` (src/main.py lines 85-112).
Lowercases the question, scores each category by keyword hits, and takes
`max(scores, key=scores.get)`: a left fold that replaces the current best
only on a strictly greater score, so the first category attaining the
maximum (in dict insertion order) wins.  If the best score is 0 the
function returns "general". -/
def classify_question (question : String) : String :=
  let question_lower := pyLower question
  let scores := keywords.map (fun p => (p.1, scoreOf p.2 question_lower))
  match scores with
  | [] => "general"
  | s :: rest =>
    let best := rest.foldl (fun b y => if y.2 > b.2 then y else b) s
    if best.2 = 0 then "general" else best.1

/-- The classifier as the specification words it: compute the maximum
keyword-hit count over the categories in their fixed declaration order
(history, culture, politics, economy); if the maximum is zero return
"general", otherwise return the first category in declaration order whose
count equals the maximum. -/
def classifySpec (question : String) : String :=
  let ql := pyLower question
  let s1 := scoreOf keywords_history ql
  let s2 := scoreOf keywords_culture ql
  let s3 := scoreOf keywords_politics ql
  let s4 := scoreOf keywords_economy ql
  let m := max (max (max s1 s2) s3) s4
  if m = 0 then "general"
  else if s1 = m then "history"
  else if s2 = m then "culture"
  else if s3 = m then "politics"
  else "economy"

/-- A LangChain document as this pipeline sees it: page content plus the
metadata keys the code reads (`source`, `category`, `retrieved_from`).
A key that the dict does not hold is `none`. -/
structure Doc where
  page_content : String
  source? : Option String
  category? : Option String
  retrieved_from? : Option String
deriving DecidableEq

/-- The dict built by `format_source_document` (src/api.py lines 68-73). -/
structure SourceInfo where
  content : String
  source : String
  category : String
  retrieved_from : String
deriving DecidableEq

/-- Python string slice `s[:n]` for a nonnegative bound: the first `n`
code points. -/
def pyslice (s : String) (n : Nat) : String :=
  String.mk (s.data.take n)

/-- `format_source_document` (src/api.py lines 56-73): reads the metadata
keys with defaults, cleans the source path, and truncates the page content
to 300 characters with a "..." marker when longer. -/
def format_source_document (doc : Doc) : SourceInfo :=
  let source0 := doc.source?.getD "Unknown"
  let category := doc.category?.getD "Unknown"
  let retrieved_from := doc.retrieved_from?.getD category
  let source1 :=
    if pyIn "data/" source0 then (pySplitOn source0 "data/").getLastD source0 else source0
  let source2 := pyReplace source1 ".txt" ""
  { content :=
      if doc.page_content.length > 300 then pyslice doc.page_content 300 ++ "..."
      else doc.page_content,
    source := source2,
    category := category,
    retrieved_from := retrieved_from }

/-- One similarity-searchable index (a loaded FAISS vector store): an
opaque external search that may fail. -/
structure VectorStore where
  search : String → Nat → Except String (List Doc)

/-- The loaded `self.vectorstores` dict, as an association list in dict
insertion order, together with the opaque LLM call performed by the
RetrievalQA chain (question and stuffed context passages to answer). -/
structure Env where
  stores : List (String × VectorStore)
  llm : String → List Doc → Except String String

/-- Python dict lookup `self.vectorstores[c]` / membership test. -/
def lookupStore (stores : List (String × VectorStore)) (category : String) :
    Option VectorStore :=
  stores.lookup category

/-- `SierraLeoneAI.create_rag_chain` retriever choice (src/main.py lines
160-171): use the primary category's store when loaded, else fall back to
`self.vectorstores['general']`, which raises `KeyError` when `general` is
not loaded either. -/
def create_rag_chain (stores : List (String × VectorStore))
    (primary_category : String) : Except String VectorStore :=
  match lookupStore stores primary_category with
  | some vs => .ok vs
  | none =>
    match lookupStore stores "general" with
    | some vs => .ok vs
    | none => .error "KeyError: general"

/-- The result dict of the RetrievalQA chain plus the category returned by
`SierraLeoneAI.query`. -/
structure QueryOut where
  result : String
  source_documents : List Doc
  category : String

/-- `SierraLeoneAI.query` (src/main.py lines 183-196): classify, build the
chain for the detected category, run retrieval (k = 3 per the retriever's
`search_kwargs`) and the generation call; any raised error propagates. -/
def query (env : Env) (question : String) : Except String QueryOut :=
  let category := classify_question question
  match create_rag_chain env.stores category with
  | .error e => .error e
  | .ok retriever =>
    match retriever.search question 3 with
    | .error e => .error e
    | .ok docs =>
      match env.llm question docs with
      | .error e => .error e
      | .ok answer => .ok ⟨answer, docs, category⟩

/-- The retrieval step performed by the chain that `create_rag_chain`
returns: search the chosen store with k = 3. -/
def retrieve_single (stores : List (String × VectorStore))
    (category question : String) : Except String (List Doc) :=
  match create_rag_chain stores category with
  | .error e => .error e
  | .ok retriever => retriever.search question 3

/-- `doc.metadata['retrieved_from'] = category` (src/main.py line 122). -/
def tagRetrievedFrom (category : String) (d : Doc) : Doc :=
  { d with retrieved_from? := some category }

/-- `SierraLeoneAI.search_all_categories` (src/main.py lines 114-128):
query every loaded store, tag results with the store they came from, skip
a store whose query raises, concatenate, and keep the first `k * 3`. -/
def search_all_categories (stores : List (String × VectorStore))
    (question : String) (k : Nat) : List Doc :=
  let all_results := stores.foldl (fun acc p =>
    match p.2.search question k with
    | .ok results => acc ++ results.map (tagRetrievedFrom p.1)
    | .error _ => acc) []
  all_results.take (k * 3)

/-- All-categories retrieval as the specification words it: per loaded
index, the tagged results on success and nothing on failure, concatenated
in index-iteration order and truncated to `3 * k`. -/
def search_all_spec (stores : List (String × VectorStore))
    (question : String) (k : Nat) : List Doc :=
  (stores.flatMap (fun p =>
    match p.2.search question k with
    | .ok results => results.map (tagRetrievedFrom p.1)
    | .error _ => [])).take (k * 3)

/-- Accumulator of Python `str.split()` (no separator): split on runs of
whitespace, dropping empty pieces.  `cur` holds the reversed current word. -/
def pywordsAux (cur : List Char) : List Char → List (List Char)
  | [] => if cur.isEmpty then [] else [cur.reverse]
  | c :: rest =>
    if c.isWhitespace then
      if cur.isEmpty then pywordsAux [] rest
      else cur.reverse :: pywordsAux [] rest
    else pywordsAux (c :: cur) rest

/-- Python `answer.split()` (src/api.py line 99). -/
def pysplit (s : String) : List String :=
  (pywordsAux [] s.data).map String.mk

/-- The chunking loop of `generate_streaming_response` (src/api.py lines
100-103) with its hard-coded `chunk_size = 3` unrolled: each group of at
most three words is joined with single spaces and given a trailing space. -/
def chunkWords : List String → List String
  | [] => []
  | [a] => [a ++ " "]
  | [a, b] => [a ++ " " ++ b ++ " "]
  | a :: b :: c :: rest => (a ++ " " ++ b ++ " " ++ c ++ " ") :: chunkWords rest

/-- Python list slice `lst[:n]` where `n` may be negative (a negative
bound keeps all but the last `-n` elements). -/
def pyTake (n : Int) (xs : List α) : List α :=
  if n < 0 then xs.take (xs.length - (-n).toNat) else xs.take n.toNat

/-- The newline-delimited records yielded by the streaming generator,
as tagged events: `{"type": "metadata"|"content"|"sources"|"done"|"error",
"data": ...}`. -/
inductive StreamEvent where
  | metadata (category question timestamp : String)
  | content (text : String)
  | sources (sources : List SourceInfo)
  | done (status : String)
  | error (message : String)
deriving DecidableEq

/-- `generate_streaming_response` (src/api.py lines 76-128): classify and
emit one metadata event; then run the query — on success emit one content
event per word chunk, one sources event when sources were requested and
the result's source document list is nonempty (sliced to `max_sources`),
and one done event; on failure emit a single error event. -/
def generate_streaming_response (env : Env) (question : String)
    (include_sources : Bool) (max_sources : Int) (timestamp : String) :
    List StreamEvent :=
  let category := classify_question question
  StreamEvent.metadata category question timestamp ::
    match query env question with
    | .error e => [StreamEvent.error e]
    | .ok res =>
      let words := pysplit res.result
      let contentEvents := (chunkWords words).map StreamEvent.content
      let sourceEvents :=
        if include_sources && !res.source_documents.isEmpty then
          [StreamEvent.sources
            ((pyTake max_sources res.source_documents).map format_source_document)]
        else []
      contentEvents ++ sourceEvents ++ [StreamEvent.done "complete"]

/-- A FastAPI `HTTPException` as raised by the query endpoint. -/
structure HTTPExceptionModel where
  status_code : Nat
  detail : String
deriving DecidableEq

/-- `query_endpoint` (src/api.py lines 192-225): reject an empty or
whitespace-only question with a 400 before starting the stream, otherwise
return the streaming response. -/
def query_endpoint (env : Env) (question : String) (include_sources : Bool)
    (max_sources : Int) (timestamp : String) :
    Except HTTPExceptionModel (List StreamEvent) :=
  if question = "" || pyStrip question = "" then
    .error ⟨400, "Question cannot be empty"⟩
  else
    .ok (generate_streaming_response env question include_sources max_sources timestamp)

/-- Well-formedness of a loaded index, established by the offline build:
`data_loading.py` line 60 stamps every document with the category folder
it was loaded from, and no document carries a `retrieved_from` key at
build time. -/
def WellFormedStore (category : String) (vs : VectorStore) : Prop :=
  ∀ question k docs, vs.search question k = .ok docs →
    ∀ d ∈ docs, d.category? = some category ∧ d.retrieved_from? = none

/-- Python `" ".join(l)`: tokens joined by single spaces. -/
def sjoin : List String → String
  | [] => ""
  | [a] => a
  | a :: rest => a ++ " " ++ sjoin rest

/-- Concatenation of a list of strings in order. -/
def concatAll : List String → String
  | [] => ""
  | a :: rest => a ++ concatAll rest

/-! Concrete fixtures used to exercise the pipeline on explicit inputs:
small documents, stores and environments. -/

/-- A sample indexed document of the `general` category. -/
def docG1 : Doc :=
  ⟨"General facts about Freetown.", some "data/general/overview.txt",
   some "general", none⟩

/-- Environment whose generation call succeeds with an empty answer. -/
def envC1x : Env :=
  ⟨[("general", ⟨fun _ _ => .ok [docG1]⟩)], fun _ _ => .ok ""⟩

/-- Environment whose generation call succeeds with a short answer. -/
def envC1w : Env :=
  ⟨[("general", ⟨fun _ _ => .ok [docG1]⟩)],
   fun _ _ => .ok "Freetown is the capital of Sierra Leone."⟩

/-- Environment whose generation call fails. -/
def envC2x : Env :=
  ⟨[("general", ⟨fun _ _ => .ok []⟩)], fun _ _ => .error "GenerationFailed"⟩

/-- Three short sample documents. -/
def docA : Doc := ⟨"Alpha.", some "a", some "general", none⟩

/-- Second sample document. -/
def docB : Doc := ⟨"Beta.", some "b", some "general", none⟩

/-- Third sample document. -/
def docC : Doc := ⟨"Gamma.", some "c", some "general", none⟩

/-- Environment whose retrieval returns three source documents. -/
def envC5x : Env :=
  ⟨[("general", ⟨fun _ _ => .ok [docA, docB, docC]⟩)], fun _ _ => .ok "ans"⟩

/-- Environment with only the `history` store loaded (no `general`). -/
def envC6x : Env :=
  ⟨[("history", ⟨fun _ _ => .ok []⟩)], fun _ _ => .ok "x"⟩

/-- A document indexed under `general`, as stamped by the offline build. -/
def docGen8 : Doc :=
  ⟨"General facts.", some "data/general/doc.txt", some "general", none⟩

/-- A store dict holding only the `general` index. -/
def stores8 : List (String × VectorStore) :=
  [("general", ⟨fun _ _ => .ok [docGen8]⟩)]

/-- A document indexed under `history`, as stamped by the offline build. -/
def docH8 : Doc :=
  ⟨"The civil war began in 1991.", some "data/history/war.txt",
   some "history", none⟩

/-- A store serving `docH8`. -/
def vsH8 : VectorStore := ⟨fun _ _ => .ok [docH8]⟩

/-- A store dict holding only the `history` index. -/
def storesH8 : List (String × VectorStore) := [("history", vsH8)]

/-- Environment whose generation call returns a whitespace-only answer. -/
def envC9x : Env :=
  ⟨[("general", ⟨fun _ _ => .ok [docG1]⟩)], fun _ _ => .ok " "⟩

/-- Environment with a loaded `history` store and a succeeding LLM. -/
def envC10x : Env :=
  ⟨[("history", ⟨fun _ _ => .ok [docH8]⟩)], fun _ _ => .ok "It began in 1991."⟩

/-! Helper lemmas about the embedded operations. -/

theorem chunkWords_ne_nil (ws : List String) (h : ws ≠ []) : chunkWords ws ≠ [] := by
  match ws with
  | [a] => simp [chunkWords]
  | [a, b] => simp [chunkWords]
  | a :: b :: c :: rest => simp [chunkWords]

theorem concatAll_chunkWords : ∀ ws : List String, ws ≠ [] →
    concatAll (chunkWords ws) = sjoin ws ++ " "
  | [a], _ => by simp [chunkWords, concatAll, sjoin]
  | [a, b], _ => by simp [chunkWords, concatAll, sjoin, String.append_assoc]
  | a :: b :: c :: rest, _ => by
    cases rest with
    | nil => simp [chunkWords, concatAll, sjoin, String.append_assoc]
    | cons d rest' =>
      have ih := concatAll_chunkWords (d :: rest') (by simp)
      simp [chunkWords, concatAll, sjoin, ih, String.append_assoc]

theorem pywordsAux_all_ws : ∀ l : List Char, (∀ c ∈ l, c.isWhitespace) →
    pywordsAux [] l = []
  | [], _ => rfl
  | c :: rest, h => by
    have hc : c.isWhitespace := h c (by simp)
    simp [pywordsAux, hc, pywordsAux_all_ws rest (fun x hx => h x (by simp [hx]))]

theorem pysplit_all_ws (s : String) (h : ∀ c ∈ s.data, c.isWhitespace) :
    pysplit s = [] := by
  simp [pysplit, pywordsAux_all_ws s.data h]

/-- On a successful query the stream is the metadata event followed by the
content chunks, the conditional sources event and the done event. -/
theorem gsr_ok (env : Env) (q : String) (inc : Bool) (ms : Int) (ts : String)
    (res : QueryOut) (h : query env q = .ok res) :
    generate_streaming_response env q inc ms ts =
      StreamEvent.metadata (classify_question q) q ts ::
        ((chunkWords (pysplit res.result)).map StreamEvent.content ++
          (if inc && !res.source_documents.isEmpty then
            [StreamEvent.sources
              ((pyTake ms res.source_documents).map format_source_document)]
          else []) ++ [StreamEvent.done "complete"]) := by
  simp [generate_streaming_response, h]

/-- On a failed query the stream is the metadata event followed by a single
error event. -/
theorem gsr_err (env : Env) (q : String) (inc : Bool) (ms : Int) (ts : String)
    (e : String) (h : query env q = .error e) :
    generate_streaming_response env q inc ms ts =
      [StreamEvent.metadata (classify_question q) q ts, StreamEvent.error e] := by
  simp [generate_streaming_response, h]

/-- Every formatted source preview stays within the 300-character bound
plus the truncation marker. -/
theorem format_content_le (d : Doc) :
    (format_source_document d).content.length ≤ 300 + "...".length := by
  have h3 : "...".length = 3 := rfl
  simp only [format_source_document]
  split
  · rw [String.length_append]
    have : (pyslice d.page_content 300).length ≤ 300 := by
      rw [pyslice, String.length_mk]
      simp
    omega
  · rename_i hle
    omega

/-- The fixture store `vsH8` only serves documents stamped `history`. -/
theorem wfH8 : WellFormedStore "history" vsH8 := by
  intro q k docs h d hd
  injection h with h
  subst h
  simp only [List.mem_singleton] at hd
  subst hd
  exact ⟨rfl, rfl⟩

end SLAI

namespace SLAI

/-! The claims. -/

/-- Claim C1, counterexample: a successful query whose generated answer is
the empty string produces a stream with zero content-chunk events (here
metadata, sources, done), refuting "one or more ContentChunk events" for
every successful query. -/
theorem C1_counterexample :
    query envC1x "hello" = .ok ⟨"", [docG1], "general"⟩ ∧
    generate_streaming_response envC1x "hello" true 3 "t" =
      [StreamEvent.metadata "general" "hello" "t",
       StreamEvent.sources
         [⟨"General facts about Freetown.", "general/overview", "general", "general"⟩],
       StreamEvent.done "complete"] :=
  ⟨rfl, rfl⟩

/-- Claim C1 (amended): for every successful query whose answer holds at
least one whitespace-delimited token, the stream is exactly one metadata
event, then one or more content-chunk events, then optionally one sources
event, then exactly one done event; concatenating the content payloads in
order yields the answer's tokens joined by single spaces, with one
trailing space. -/
theorem C1_stream_shape (env : Env) (q : String) (inc : Bool) (ms : Int)
    (ts : String) (res : QueryOut) (h : query env q = .ok res)
    (hne : pysplit res.result ≠ []) :
    ∃ chunks srcs,
      chunks ≠ [] ∧
      generate_streaming_response env q inc ms ts =
        StreamEvent.metadata (classify_question q) q ts ::
          (chunks.map StreamEvent.content ++ srcs ++ [StreamEvent.done "complete"]) ∧
      (srcs = [] ∨ ∃ l, srcs = [StreamEvent.sources l]) ∧
      concatAll chunks = sjoin (pysplit res.result) ++ " " := by
  refine ⟨chunkWords (pysplit res.result),
    (if inc && !res.source_documents.isEmpty then
      [StreamEvent.sources
        ((pyTake ms res.source_documents).map format_source_document)]
    else []),
    chunkWords_ne_nil _ hne, gsr_ok env q inc ms ts res h, ?_,
    concatAll_chunkWords _ hne⟩
  split
  · exact Or.inr ⟨_, rfl⟩
  · exact Or.inl rfl

/-- Claim C1, witness: the amended stream-shape theorem applied to a
concrete environment with a nonempty answer. -/
theorem C1_witness :
    ∃ chunks srcs,
      chunks ≠ [] ∧
      generate_streaming_response envC1w "hello" true 3 "t" =
        StreamEvent.metadata (classify_question "hello") "hello" "t" ::
          (chunks.map StreamEvent.content ++ srcs ++ [StreamEvent.done "complete"]) ∧
      (srcs = [] ∨ ∃ l, srcs = [StreamEvent.sources l]) ∧
      concatAll chunks =
        sjoin (pysplit "Freetown is the capital of Sierra Leone.") ++ " " :=
  C1_stream_shape envC1w "hello" true 3 "t"
    ⟨"Freetown is the capital of Sierra Leone.", [docG1], "general"⟩ rfl (by decide)

/-- Claim C2: when the query pipeline fails (classification never fails;
retrieval or generation may), the stream is exactly one metadata event
followed by exactly one error event carrying the message — no content,
sources or done event, and nothing after the error. -/
theorem C2_generation_failure (env : Env) (q : String) (inc : Bool) (ms : Int)
    (ts : String) (e : String) (h : query env q = .error e) :
    generate_streaming_response env q inc ms ts =
      [StreamEvent.metadata (classify_question q) q ts, StreamEvent.error e] :=
  gsr_err env q inc ms ts e h

/-- Claim C2, witness: a concrete environment whose generation call
fails. -/
theorem C2_witness :
    query envC2x "hi" = .error "GenerationFailed" ∧
    generate_streaming_response envC2x "hi" true 3 "t" =
      [StreamEvent.metadata (classify_question "hi") "hi" "t",
       StreamEvent.error "GenerationFailed"] :=
  ⟨rfl, C2_generation_failure envC2x "hi" true 3 "t" "GenerationFailed" rfl⟩

/-- Claim C3: the classifier lowercases the question, scores each
non-general category by keyword-substring hits, picks the strictly
highest count with ties resolved by declaration order (history, culture,
politics, economy), and returns general when the maximum is zero —
stated as equality with the specification-side selection function. -/
theorem classify_question_eq_spec (q : String) :
    classify_question q = classifySpec q := by
  unfold classify_question classifySpec keywords
  simp only [List.map_cons, List.map_nil, List.foldl_cons, List.foldl_nil]
  generalize scoreOf keywords_history (pyLower q) = a
  generalize scoreOf keywords_culture (pyLower q) = b
  generalize scoreOf keywords_politics (pyLower q) = c
  generalize scoreOf keywords_economy (pyLower q) = d
  split_ifs <;> first | rfl | omega

/-- Claim C4: a question that is empty or whitespace-only is rejected
with a 400 client error before any pipeline work — for every environment
the endpoint returns the validation error and no stream events. -/
theorem C4_empty_question (env : Env) (q : String) (inc : Bool) (ms : Int)
    (ts : String) (h : pyStrip q = "") :
    query_endpoint env q inc ms ts =
      .error ⟨400, "Question cannot be empty"⟩ := by
  simp [query_endpoint, h]

/-- Claim C4, witness: the whitespace-only question of the spec's
scenario. -/
theorem C4_witness :
    pyStrip "   " = "" ∧
    query_endpoint envC2x "   " true 3 "t" =
      .error ⟨400, "Question cannot be empty"⟩ :=
  ⟨rfl, C4_empty_question envC2x "   " true 3 "t" rfl⟩

/-- Claim C5, counterexample: with the caller-supplied `max_sources = -1`
(the request model accepts any integer) and three retrieved documents,
the sources event holds two entries, and two does not stay below the
bound `-1` — refuting "never more than max_sources entries" as stated. -/
theorem C5_counterexample :
    generate_streaming_response envC5x "hello" true (-1) "t" =
      [StreamEvent.metadata "general" "hello" "t",
       StreamEvent.content "ans ",
       StreamEvent.sources
         [⟨"Alpha.", "a", "general", "general"⟩,
          ⟨"Beta.", "b", "general", "general"⟩],
       StreamEvent.done "complete"] ∧
    ([(⟨"Alpha.", "a", "general", "general"⟩ : SourceInfo),
      ⟨"Beta.", "b", "general", "general"⟩].length : Int) = 2 ∧
    ¬ ((2 : Int) ≤ -1) :=
  ⟨rfl, rfl, by decide⟩

/-- Claim C5 (amended): for every query with a nonnegative `max_sources`,
any sources event in the stream holds at most `max_sources` entries, and
every entry's content preview is at most the 300-character preview bound
plus the length of the "..." truncation marker. -/
theorem C5_sources_bounded (env : Env) (q : String) (inc : Bool) (ms : Int)
    (ts : String) (hms : 0 ≤ ms) (l : List SourceInfo)
    (h : StreamEvent.sources l ∈ generate_streaming_response env q inc ms ts) :
    (l.length : Int) ≤ ms ∧ ∀ s ∈ l, s.content.length ≤ 300 + "...".length := by
  cases hq : query env q with
  | error e =>
    rw [gsr_err env q inc ms ts e hq] at h
    simp at h
  | ok res =>
    rw [gsr_ok env q inc ms ts res hq] at h
    rcases List.mem_cons.mp h with h | h
    · exact absurd h (by simp)
    · rcases List.mem_append.mp h with h | h
      · rcases List.mem_append.mp h with h | h
        · exact absurd h (by simp)
        · split at h
          · have hl : l = (pyTake ms res.source_documents).map format_source_document := by
              simpa using h
            subst hl
            constructor
            · have hlen : (pyTake ms res.source_documents).length ≤ ms.toNat := by
                simp only [pyTake]
                split
                · omega
                · simp
              simp only [List.length_map]
              omega
            · intro s hs
              simp only [List.mem_map] at hs
              obtain ⟨d, _, rfl⟩ := hs
              exact format_content_le d
          · exact absurd h (by simp)
      · exact absurd h (by simp)

/-- Claim C5, witness: the bound theorem applied to a concrete stream
whose sources event holds three entries with `max_sources = 3`. -/
theorem C5_witness :
    (0 : Int) ≤ 3 ∧
    StreamEvent.sources
        [⟨"Alpha.", "a", "general", "general"⟩,
         ⟨"Beta.", "b", "general", "general"⟩,
         ⟨"Gamma.", "c", "general", "general"⟩] ∈
      generate_streaming_response envC5x "hello" true 3 "t" ∧
    (([(⟨"Alpha.", "a", "general", "general"⟩ : SourceInfo),
       ⟨"Beta.", "b", "general", "general"⟩,
       ⟨"Gamma.", "c", "general", "general"⟩].length : Int) ≤ 3 ∧
     ∀ s ∈ [(⟨"Alpha.", "a", "general", "general"⟩ : SourceInfo),
            ⟨"Beta.", "b", "general", "general"⟩,
            ⟨"Gamma.", "c", "general", "general"⟩],
       s.content.length ≤ 300 + "...".length) :=
  ⟨by decide, by decide,
   C5_sources_bounded envC5x "hello" true 3 "t" (by decide) _ (by decide)⟩

/-- Claim C6: when the classified category's index is not loaded, the
retriever choice falls back to the general index; when the general index
is missing too, the query fails with the key error and the stream is the
metadata event followed by a terminal error event. -/
theorem C6_fallback (env : Env) (q : String) (inc : Bool) (ms : Int) (ts : String)
    (h1 : lookupStore env.stores (classify_question q) = none) :
    (∀ vs, lookupStore env.stores "general" = some vs →
      create_rag_chain env.stores (classify_question q) = .ok vs) ∧
    (lookupStore env.stores "general" = none →
      generate_streaming_response env q inc ms ts =
        [StreamEvent.metadata (classify_question q) q ts,
         StreamEvent.error "KeyError: general"]) := by
  constructor
  · intro vs h2
    simp [create_rag_chain, h1, h2]
  · intro h2
    have hq : query env q = .error "KeyError: general" := by
      simp [query, create_rag_chain, h1, h2]
    simp [generate_streaming_response, hq]

/-- Claim C6, witness: a question classified `economy` against an
environment where neither `economy` nor `general` is loaded. -/
theorem C6_witness :
    generate_streaming_response envC6x "market" true 3 "t" =
      [StreamEvent.metadata (classify_question "market") "market" "t",
       StreamEvent.error "KeyError: general"] :=
  (C6_fallback envC6x "market" true 3 "t" rfl).2 rfl

/-- Claim C7: all-categories retrieval equals querying every loaded index
independently, tagging each result's retrieved_from with its index,
concatenating in index-iteration order with a failed index contributing
nothing, and truncating to at most `3 * k` results. -/
theorem C7_search_all (stores : List (String × VectorStore)) (q : String) (k : Nat) :
    search_all_categories stores q k = search_all_spec stores q k ∧
    (search_all_categories stores q k).length ≤ 3 * k := by
  have hfold : ∀ (l : List (String × VectorStore)) (init : List Doc),
      l.foldl (fun acc p =>
        match p.2.search q k with
        | .ok results => acc ++ results.map (tagRetrievedFrom p.1)
        | .error _ => acc) init
      = init ++ l.flatMap (fun p =>
          match p.2.search q k with
          | .ok results => results.map (tagRetrievedFrom p.1)
          | .error _ => []) := by
    intro l
    induction l with
    | nil => intro init; simp
    | cons p l ih =>
      intro init
      cases hp : p.2.search q k <;> simp [hp, ih]
  constructor
  · simp [search_all_categories, search_all_spec, hfold]
  · have := List.length_take_le (k * 3)
      (stores.foldl (fun acc p =>
        match p.2.search q k with
        | .ok results => acc ++ results.map (tagRetrievedFrom p.1)
        | .error _ => acc) [])
    simp only [search_all_categories]
    omega

/-- Claim C8, counterexample: with only the `general` index loaded,
single-category retrieval for `history` serves passages of the fallback
index, and the formatted passage carries category and retrieved_from
`general`, not `history` — refuting the unconditional round-trip. -/
theorem C8_counterexample :
    retrieve_single stores8 "history" "q" = .ok [docGen8] ∧
    (format_source_document docGen8).category = "general" ∧
    (format_source_document docGen8).retrieved_from = "general" ∧
    ("general" : String) ≠ "history" :=
  ⟨rfl, rfl, rfl, by decide⟩

/-- Claim C8 (amended): when category X's index is loaded (no fallback)
and well formed per the offline build, every passage served by
single-category retrieval for X formats with
origin category = retrieved_from = X. -/
theorem C8_roundtrip (stores : List (String × VectorStore)) (X q : String)
    (vs : VectorStore) (hX : lookupStore stores X = some vs)
    (hwf : WellFormedStore X vs) (docs : List Doc)
    (h : retrieve_single stores X q = .ok docs) :
    ∀ d ∈ docs, (format_source_document d).category = X ∧
      (format_source_document d).retrieved_from = X := by
  have hsearch : vs.search q 3 = .ok docs := by
    simpa [retrieve_single, create_rag_chain, hX] using h
  intro d hd
  obtain ⟨h1, h2⟩ := hwf q 3 docs hsearch d hd
  simp [format_source_document, h1, h2]

/-- Claim C8, witness: the round-trip on a loaded, well-formed `history`
store. -/
theorem C8_witness :
    (format_source_document docH8).category = "history" ∧
    (format_source_document docH8).retrieved_from = "history" :=
  C8_roundtrip storesH8 "history" "q" vsH8 rfl wfH8 [docH8] rfl docH8 (by simp)

/-- Claim C9: a successful query whose answer is empty or whitespace-only
emits zero content-chunk events — the stream is metadata, optionally one
sources event, then done. -/
theorem C9_whitespace_answer (env : Env) (q : String) (inc : Bool) (ms : Int)
    (ts : String) (res : QueryOut) (h : query env q = .ok res)
    (hw : ∀ c ∈ res.result.data, c.isWhitespace) :
    ∃ srcs,
      generate_streaming_response env q inc ms ts =
        StreamEvent.metadata (classify_question q) q ts ::
          (srcs ++ [StreamEvent.done "complete"]) ∧
      (srcs = [] ∨ ∃ l, srcs = [StreamEvent.sources l]) ∧
      ∀ t, StreamEvent.content t ∉ generate_streaming_response env q inc ms ts := by
  have hps : pysplit res.result = [] := pysplit_all_ws _ hw
  refine ⟨(if inc && !res.source_documents.isEmpty then
      [StreamEvent.sources
        ((pyTake ms res.source_documents).map format_source_document)]
    else []), ?_, ?_, ?_⟩
  · rw [gsr_ok env q inc ms ts res h, hps]
    simp [chunkWords]
  · split
    · exact Or.inr ⟨_, rfl⟩
    · exact Or.inl rfl
  · intro t hc
    rw [gsr_ok env q inc ms ts res h, hps] at hc
    simp only [chunkWords, List.map_nil, List.nil_append, List.mem_cons] at hc
    rcases hc with hc | hc
    · simp at hc
    · rcases List.mem_append.mp hc with hc | hc
      · split at hc <;> simp at hc
      · simp at hc

/-- Claim C9, witness: a concrete environment whose generated answer is a
single space. -/
theorem C9_witness :
    ∃ srcs,
      generate_streaming_response envC9x "hi" true 3 "t" =
        StreamEvent.metadata (classify_question "hi") "hi" "t" ::
          (srcs ++ [StreamEvent.done "complete"]) ∧
      (srcs = [] ∨ ∃ l, srcs = [StreamEvent.sources l]) ∧
      ∀ t, StreamEvent.content t ∉ generate_streaming_response envC9x "hi" true 3 "t" :=
  C9_whitespace_answer envC9x "hi" true 3 "t" ⟨" ", [docG1], "general"⟩ rfl
    (by decide)

/-- Claim C10: classification is pure, so the category of the metadata
event (computed by the streaming layer's own classify call) always equals
the category the query pipeline classified and scoped retrieval to: the
query result's category is the classify output, the stream's first event
is the metadata event carrying it, and the retriever the pipeline used is
the one `create_rag_chain` selects for that same category. -/
theorem C10_two_run_determinism (env : Env) (q : String) (inc : Bool) (ms : Int)
    (ts : String) (res : QueryOut) (h : query env q = .ok res) :
    res.category = classify_question q ∧
    (generate_streaming_response env q inc ms ts).head? =
      some (StreamEvent.metadata res.category q ts) ∧
    ∃ vs, create_rag_chain env.stores res.category = .ok vs ∧
      vs.search q 3 = .ok res.source_documents := by
  simp only [query] at h
  split at h
  · exact absurd h (by simp)
  · rename_i vs hc
    split at h
    · exact absurd h (by simp)
    · rename_i docs hs
      split at h
      · exact absurd h (by simp)
      · rename_i ans hl
        simp only [Except.ok.injEq] at h
        subst h
        exact ⟨rfl, by simp [generate_streaming_response], vs, hc, hs⟩

/-- Claim C10, witness: a concrete history-classified query whose metadata
event and retrieval scope agree. -/
theorem C10_witness :
    (⟨"It began in 1991.", [docH8], "history"⟩ : QueryOut).category =
      classify_question "Tell me about the war" ∧
    (generate_streaming_response envC10x "Tell me about the war" true 3 "t").head? =
      some (StreamEvent.metadata
        (⟨"It began in 1991.", [docH8], "history"⟩ : QueryOut).category
        "Tell me about the war" "t") ∧
    ∃ vs, create_rag_chain envC10x.stores
        (⟨"It began in 1991.", [docH8], "history"⟩ : QueryOut).category = .ok vs ∧
      vs.search "Tell me about the war" 3 = .ok
        (⟨"It began in 1991.", [docH8], "history"⟩ : QueryOut).source_documents :=
  C10_two_run_determinism envC10x "Tell me about the war" true 3 "t"
    ⟨"It began in 1991.", [docH8], "history"⟩ rfl

end SLAI
